import Mathlib

/-! Shallow embedding of the WebSocket client wrapper
(`src/services/websocket.ts`, class `WebSocketService`).

The service owns a nullable socket handle, an `isConnected` flag, a
reconnect-attempt counter, a cached current user id, a listener registry
(a JS `Map` from event name to a `Set` of listener callbacks) and the
configured reconnect delay.  Asynchronous collaborators are passed in
explicitly: the secure token store is an oracle giving the outcome of each
`getItemAsync` attempt, and the socket connect race is an `outcome` flag
telling which terminal event (`connect` or `connect_error`) fires first.
External listener callbacks are identified by numbers; their behaviour
(return normally, or throw a given error) is an oracle `beh`.
-/

namespace WS

/-- A live socket handle; we track the library-reported `connected` flag. -/
structure Socket where
  connected : Bool
deriving DecidableEq

/-- The event-listener registry: a JS Map from event name to a Set of
listener references, modelled as an association list in insertion order
with listeners as numeric identifiers. -/
abbrev Registry := List (String × List Nat)

/-- The mutable fields of the `WebSocketService` instance, plus the
configured reconnect delay (read from ENV at construction, never written). -/
structure WSState where
  socket : Option Socket
  isConnected : Bool
  reconnectAttempts : Nat
  currentUserId : Option String
  eventListeners : Registry
  reconnectDelay : Nat
deriving DecidableEq

/-- The freshly constructed service: no socket, not connected, zero
reconnect attempts, no user id, empty registry. -/
def initState (delay : Nat) : WSState :=
  ⟨none, false, 0, none, [], delay⟩

/-- The guard used by every operation: `this.socket?.connected` (false when
the handle is null). -/
def socketConn (s : WSState) : Bool :=
  match s.socket with
  | some sk => sk.connected
  | none => false

/-- The public `connected` getter:
`this.isConnected && this.socket?.connected === true`. -/
def connectedGetter (s : WSState) : Bool :=
  s.isConnected && socketConn s

/-- JS string truthiness as used by `userId || null`, `currentUserId ||
undefined` and `if (token)`: null/undefined and the empty string are falsy. -/
def truthy : Option String → Option String
  | some u => if u = "" then none else some u
  | none => none

/-- Outcome of one `SecureStore.getItemAsync` call per attempt index: a token,
null, or a thrown error. -/
abbrev TokenStore := Nat → Except String (Option String)

/-- The try/catch around one `getItemAsync` call inside
`getAuthTokenWithRetry`: a thrown error is caught and treated like an absent
token for control flow; a returned empty string is falsy. -/
def fetchOutcome : Except String (Option String) → Option String
  | .ok t => truthy t
  | .error _ => none

/-- The `for (let i = 0; i < maxRetries; i++)` loop of
`getAuthTokenWithRetry`, with `remaining = maxRetries - i` as fuel and `i`
the absolute attempt index.  Returns the token found (if any), the number of
fetch attempts performed, and the list of sleeps (ms) performed; the loop
sleeps `delay` only when the attempt failed and was not the last one. -/
def tokenRetryLoop (store : TokenStore) (delay : Nat) :
    Nat → Nat → Option String × Nat × List Nat
  | 0, _ => (none, 0, [])
  | remaining + 1, i =>
    if (fetchOutcome (store i)).isSome then (fetchOutcome (store i), 1, [])
    else if remaining = 0 then (none, 1, [])
    else
      ((tokenRetryLoop store delay remaining (i + 1)).1,
       (tokenRetryLoop store delay remaining (i + 1)).2.1 + 1,
       delay :: (tokenRetryLoop store delay remaining (i + 1)).2.2)

/-- `getAuthTokenWithRetry(maxRetries, delay)` (defaults 3 and 1000 at the
call site in `connect`). -/
def getAuthTokenWithRetry (store : TokenStore) (maxRetries delay : Nat) :
    Option String × Nat × List Nat :=
  tokenRetryLoop store delay maxRetries 0

/-- Result of an awaited `connect` call: the resolved boolean, the state
afterwards, the number of token fetches, the sleeps performed (ms), and the
auth payload `(token, userId)` passed to `io(...)` (none when no socket was
opened). -/
structure ConnectResult where
  result : Bool
  state : WSState
  fetchAttempts : Nat
  sleeps : List Nat
  auth : Option (String × Option String)
deriving DecidableEq

/-- `connect(userId?)`.  If the current socket is already connected it
resolves true immediately.  Otherwise it fetches a token with
`getAuthTokenWithRetry()` (3 attempts, 1000 ms), resolving false when none is
obtained; then stores `userId || null`, opens a socket passing
`{token, userId}` as auth, and resolves with the first terminal event: on
`connect` the handler sets `isConnected = true` and `reconnectAttempts = 0`;
on `connect_error` it sets `isConnected = false` and the new, never-connected
handle stays in place. -/
def connect (s : WSState) (userId : Option String) (store : TokenStore)
    (outcome : Bool) : ConnectResult :=
  if socketConn s then
    ⟨true, s, 0, [], none⟩
  else
    match getAuthTokenWithRetry store 3 1000 with
    | (none, attempts, sleeps) => ⟨false, s, attempts, sleeps, none⟩
    | (some tok, attempts, sleeps) =>
      if outcome then
        ⟨true,
          { s with currentUserId := truthy userId, socket := some ⟨true⟩,
                   isConnected := true, reconnectAttempts := 0 },
          attempts, sleeps, some (tok, truthy userId)⟩
      else
        ⟨false,
          { s with currentUserId := truthy userId, socket := some ⟨false⟩,
                   isConnected := false },
          attempts, sleeps, some (tok, truthy userId)⟩

/-- `disconnect()`: when a socket is present, tears it down and clears the
handle, the `isConnected` flag and the cached user id; otherwise it does
nothing at all. -/
def disconnect (s : WSState) : WSState :=
  match s.socket with
  | some _ => { s with socket := none, isConnected := false, currentUserId := none }
  | none => s

/-- `reconnect()`: `this.disconnect()`, then a sleep of
`this.reconnectDelay` ms, then `this.connect(this.currentUserId || undefined)`
where `currentUserId` is read after the disconnect. -/
def reconnect (s : WSState) (store : TokenStore) (outcome : Bool) : ConnectResult :=
  let cr := connect (disconnect s) (disconnect s).currentUserId store outcome
  ⟨cr.result, cr.state, cr.fetchAttempts, s.reconnectDelay :: cr.sleeps, cr.auth⟩

/-- Payloads of outbound `socket.emit` calls, one constructor per object
literal in the source. -/
inductive OutPayload
  | joinRoom (recipientId : String)
  | leaveRoom (recipientId : String)
  | sendMessage (recipientId : String) (content : String) (type : String)
  | markMessageRead (messageId : String)
  | typing (recipientId : String) (isTyping : Bool)
  | getActiveUsers
  | sendChatInvitation (recipientId : String) (message : String)
  | acceptChatInvitation (invitationId : String)
  | rejectChatInvitation (invitationId : String)
  | custom (event : String)
deriving DecidableEq

/-- An outbound socket emission: server-side event name and payload. -/
abbrev Emission := String × OutPayload

/-- `joinRoom(recipientId)`: guarded emit of `join_room`; returns nothing
(`none`) on both paths.  None of the guarded operations mutate the state. -/
def joinRoom (s : WSState) (recipientId : String) : Option Bool × List Emission :=
  if socketConn s then (none, [("join_room", .joinRoom recipientId)])
  else (none, [])

/-- `leaveRoom(recipientId)`: guarded emit of `leave_room`; returns nothing. -/
def leaveRoom (s : WSState) (recipientId : String) : Option Bool × List Emission :=
  if socketConn s then (none, [("leave_room", .leaveRoom recipientId)])
  else (none, [])

/-- `sendMessage(recipientId, content, type)`: guarded emit of
`send_message`; returns false when not connected, true after emitting. -/
def sendMessage (s : WSState) (recipientId content type : String) :
    Option Bool × List Emission :=
  if socketConn s then
    (some true, [("send_message", .sendMessage recipientId content type)])
  else (some false, [])

/-- `markMessageAsRead(messageId)`: guarded emit of `mark_message_read`;
returns nothing. -/
def markMessageAsRead (s : WSState) (messageId : String) : Option Bool × List Emission :=
  if socketConn s then (none, [("mark_message_read", .markMessageRead messageId)])
  else (none, [])

/-- `sendTypingStatus(recipientId, isTyping)`: guarded emit of `typing`;
returns nothing. -/
def sendTypingStatus (s : WSState) (recipientId : String) (isTyping : Bool) :
    Option Bool × List Emission :=
  if socketConn s then (none, [("typing", .typing recipientId isTyping)])
  else (none, [])

/-- `getActiveUsers()`: guarded emit of `get_active_users` (no payload);
returns nothing. -/
def getActiveUsers (s : WSState) : Option Bool × List Emission :=
  if socketConn s then (none, [("get_active_users", .getActiveUsers)])
  else (none, [])

/-- `sendChatInvitation(recipientId, message)`: guarded emit of
`send_chat_invitation`; returns false when not connected, true after. -/
def sendChatInvitation (s : WSState) (recipientId message : String) :
    Option Bool × List Emission :=
  if socketConn s then
    (some true, [("send_chat_invitation", .sendChatInvitation recipientId message)])
  else (some false, [])

/-- `acceptChatInvitation(invitationId)`: guarded emit of
`accept_chat_invitation`; false when not connected, true after. -/
def acceptChatInvitation (s : WSState) (invitationId : String) :
    Option Bool × List Emission :=
  if socketConn s then
    (some true, [("accept_chat_invitation", .acceptChatInvitation invitationId)])
  else (some false, [])

/-- `rejectChatInvitation(invitationId)`: guarded emit of
`reject_chat_invitation`; false when not connected, true after. -/
def rejectChatInvitation (s : WSState) (invitationId : String) :
    Option Bool × List Emission :=
  if socketConn s then
    (some true, [("reject_chat_invitation", .rejectChatInvitation invitationId)])
  else (some false, [])

/-- The guarded operations named by the spec, with their arguments. -/
inductive GuardedOp
  | joinRoom (recipientId : String)
  | leaveRoom (recipientId : String)
  | sendMessage (recipientId : String) (content : String) (type : String)
  | markMessageAsRead (messageId : String)
  | sendTypingStatus (recipientId : String) (isTyping : Bool)
  | getActiveUsers
  | sendChatInvitation (recipientId : String) (message : String)
  | acceptChatInvitation (invitationId : String)
  | rejectChatInvitation (invitationId : String)
deriving DecidableEq

/-- Dispatch a guarded operation to its definition. -/
def runGuarded (s : WSState) : GuardedOp → Option Bool × List Emission
  | .joinRoom r => joinRoom s r
  | .leaveRoom r => leaveRoom s r
  | .sendMessage r c t => sendMessage s r c t
  | .markMessageAsRead m => markMessageAsRead s m
  | .sendTypingStatus r b => sendTypingStatus s r b
  | .getActiveUsers => getActiveUsers s
  | .sendChatInvitation r m => sendChatInvitation s r m
  | .acceptChatInvitation i => acceptChatInvitation s i
  | .rejectChatInvitation i => rejectChatInvitation s i

/-- JS `Set.add`: appends the listener if not already present. -/
def setAdd (ls : List Nat) (l : Nat) : List Nat :=
  if l ∈ ls then ls else ls ++ [l]

/-- `on(event, listener)`: creates the set for `event` if absent
(`Map.set` appends new keys in insertion order), then adds the listener. -/
def regOn : Registry → String → Nat → Registry
  | [], e, l => [(e, [l])]
  | (k, ls) :: rest, e, l =>
    if k = e then (k, setAdd ls l) :: rest
    else (k, ls) :: regOn rest e l

/-- `off(event, listener)`: looks up the set for `event`, deletes the
listener from it, and removes the event key entirely when the set becomes
empty. -/
def regOff : Registry → String → Nat → Registry
  | [], _, _ => []
  | (k, ls) :: rest, e, l =>
    if k = e then
      if ls.erase l = [] then rest else (k, ls.erase l) :: rest
    else (k, ls) :: regOff rest e l

/-- `eventListeners.get(event)`: the listener set registered for `event`
(empty when the key is absent). -/
def listenersFor : Registry → String → List Nat
  | [], _ => []
  | (k, ls) :: rest, e => if k = e then ls else listenersFor rest e

/-- The `forEach` loop of the private `emit`: each listener is invoked with
the data inside a try/catch, a thrown error is caught (and logged), and the
loop continues with the remaining listeners.  `beh l d` is `none` when
listener `l` returns normally on payload `d`, `some err` when it throws.
The result is the invocation log: every invoked listener paired with its
caught error, if any. -/
def emitRun {α : Type} (beh : Nat → α → Option String) :
    List Nat → α → List (Nat × Option String)
  | [], _ => []
  | l :: rest, d => (l, beh l d) :: emitRun beh rest d

/-- The private `emit(event, data)`: looks up the listeners registered for
`event` and dispatches `data` to each of them. -/
def emit {α : Type} (beh : Nat → α → Option String) (r : Registry) (e : String)
    (d : α) : List (Nat × Option String) :=
  emitRun beh (listenersFor r e) d

/-- The `socket.on` registrations made by `setupEventListeners`, in source
order: (inbound socket event, registry event the handler re-emits).  Every
handler body is `this.emit(name, data)` with the payload passed verbatim.
Note that `room_joined` and `room_left` are each registered twice. -/
def setupEventListeners : List (String × String) :=
  [("new_message", "new_message"),
   ("message_read", "message_read"),
   ("room_joined", "room_joined"),
   ("room_left", "room_left"),
   ("user_typing", "user_typing"),
   ("user_online", "user_online"),
   ("user_offline", "user_offline"),
   ("room_joined", "room_joined"),
   ("room_left", "room_left"),
   ("user_joined_room", "user_joined_room")]

/-- Delivery of one inbound socket event on the connected socket: every
handler registered for that socket event runs in registration order, each
re-emitting the payload verbatim through the registry.  Returns the list of
registry emissions (registry event, payload). -/
def deliverInbound {α : Type} (e : String) (d : α) : List (String × α) :=
  (setupEventListeners.filter (fun p => p.1 == e)).map (fun p => (p.2, d))

/-- The snapshot returned by `getConnectionStatus()`. -/
structure ConnectionStatus where
  connected : Bool
  reconnectAttempts : Nat
  userId : Option String
deriving DecidableEq

/-- `getConnectionStatus()`. -/
def getConnectionStatus (s : WSState) : ConnectionStatus :=
  ⟨connectedGetter s, s.reconnectAttempts, s.currentUserId⟩

/-- Body of the handler for the socket `connect` event, which also fires on a
library-level automatic reconnection: the socket reports connected, the flag
is set and the attempt counter is reset to 0. -/
def onSocketConnect (s : WSState) : WSState :=
  { s with socket := s.socket.map (fun _ => ⟨true⟩), isConnected := true,
           reconnectAttempts := 0 }

/-- Body of the handler for the socket `disconnect` event: the socket reports
disconnected, the flag is cleared, and a `disconnected` event is re-emitted
(which does not change the state). -/
def onSocketDisconnect (s : WSState) : WSState :=
  { s with socket := s.socket.map (fun _ => ⟨false⟩), isConnected := false }

/-- Body of the handler for the socket `connect_error` event. -/
def onSocketConnectError (s : WSState) : WSState :=
  { s with isConnected := false }

/-- One state transition of the service: a public operation or a socket-level
event.  The guarded operations, `emitEvent`, `on`/`off` dispatch and inbound
deliveries that only re-emit do not change the state beyond what is listed
(`on`/`off` change only the registry). -/
inductive Step : WSState → WSState → Prop
  | connectStep (s : WSState) (uid : Option String) (store : TokenStore)
      (outcome : Bool) : Step s (connect s uid store outcome).state
  | disconnectStep (s : WSState) : Step s (disconnect s)
  | reconnectStep (s : WSState) (store : TokenStore) (outcome : Bool) :
      Step s (reconnect s store outcome).state
  | onStep (s : WSState) (e : String) (l : Nat) :
      Step s { s with eventListeners := regOn s.eventListeners e l }
  | offStep (s : WSState) (e : String) (l : Nat) :
      Step s { s with eventListeners := regOff s.eventListeners e l }
  | socketConnectStep (s : WSState) : Step s (onSocketConnect s)
  | socketDisconnectStep (s : WSState) : Step s (onSocketDisconnect s)
  | socketConnectErrorStep (s : WSState) : Step s (onSocketConnectError s)

/-- States reachable from the freshly constructed service by any sequence of
operations and socket events. -/
def Reachable (delay : Nat) (s : WSState) : Prop :=
  Relation.ReflTransGen Step (initState delay) s

/-! General lemmas about the embedding. -/

theorem tokenRetryLoop_all_empty (store : TokenStore)
    (h : ∀ i, store i = Except.ok none) (delay : Nat) :
    ∀ r i, tokenRetryLoop store delay r i = (none, r, List.replicate (r - 1) delay) := by
  intro r
  induction r with
  | zero => intro i; rfl
  | succ n ih =>
    intro i
    unfold tokenRetryLoop
    rw [h i]
    cases n with
    | zero => rfl
    | succ m =>
      rw [ih (i + 1)]
      simp [fetchOutcome, truthy, List.replicate_succ]

theorem getAuthTokenWithRetry_all_empty (store : TokenStore)
    (h : ∀ i, store i = Except.ok none) :
    getAuthTokenWithRetry store 3 1000 = (none, 3, [1000, 1000]) := by
  unfold getAuthTokenWithRetry
  rw [tokenRetryLoop_all_empty store h 1000 3 0]
  rfl

/-! Claim theorems. -/

/-- Claim C3: when the token store yields no token on every attempt, connect
(from a state whose socket is not already connected, so that the fetch path
runs) performs exactly 3 token-fetch attempts separated by fixed 1000 ms
delays and then resolves false; the model of connect is a total function, in
accordance with the try/catch in the source through which no exception
escapes. -/
theorem connect_no_token_retries_then_false (s : WSState) (uid : Option String)
    (store : TokenStore) (outcome : Bool) (hs : socketConn s = false)
    (hstore : ∀ i, store i = Except.ok none) :
    (connect s uid store outcome).result = false ∧
    (connect s uid store outcome).fetchAttempts = 3 ∧
    (connect s uid store outcome).sleeps = [1000, 1000] := by
  unfold connect
  rw [hs, getAuthTokenWithRetry_all_empty store hstore]
  simp

/-- Witness for C3: a fresh service and a store that always yields nothing. -/
theorem connect_no_token_retries_then_false_wit :
    (connect (initState 1000) (some "u1") (fun _ => Except.ok none) true).result = false ∧
    (connect (initState 1000) (some "u1") (fun _ => Except.ok none) true).fetchAttempts = 3 ∧
    (connect (initState 1000) (some "u1") (fun _ => Except.ok none) true).sleeps = [1000, 1000] :=
  connect_no_token_retries_then_false (initState 1000) (some "u1")
    (fun _ => Except.ok none) true rfl (fun _ => rfl)

/-- Claim C10: from a not-already-connected state, when the retrying token
fetch obtains no token, connect returns false and the socket handle, the
cached user id and the event-listener registry are all exactly as before the
call (in particular the userId argument is not stored). -/
theorem connect_token_failure_unchanged (s : WSState) (uid : Option String)
    (store : TokenStore) (outcome : Bool) (hs : socketConn s = false)
    (htok : (getAuthTokenWithRetry store 3 1000).1 = none) :
    (connect s uid store outcome).result = false ∧
    (connect s uid store outcome).state.socket = s.socket ∧
    (connect s uid store outcome).state.currentUserId = s.currentUserId ∧
    (connect s uid store outcome).state.eventListeners = s.eventListeners := by
  unfold connect
  rcases hres : getAuthTokenWithRetry store 3 1000 with ⟨t, a, sl⟩
  rw [hres] at htok
  simp only at htok
  subst htok
  rw [hs]
  simp

/-- Witness for C10: a fresh service and a store that always yields nothing. -/
theorem connect_token_failure_unchanged_wit :
    (connect (initState 1200) (some "u2") (fun _ => Except.ok none) true).result = false ∧
    (connect (initState 1200) (some "u2") (fun _ => Except.ok none) true).state.socket = (initState 1200).socket ∧
    (connect (initState 1200) (some "u2") (fun _ => Except.ok none) true).state.currentUserId = (initState 1200).currentUserId ∧
    (connect (initState 1200) (some "u2") (fun _ => Except.ok none) true).state.eventListeners = (initState 1200).eventListeners :=
  connect_token_failure_unchanged (initState 1200) (some "u2")
    (fun _ => Except.ok none) true rfl rfl

/-- A state in which the public `connected` getter is false (the internal
flag is down) while the socket handle itself still reports connected. -/
def divergedState : WSState := ⟨some ⟨true⟩, false, 0, none, [], 1000⟩

/-- Claim C2, counterexample: in `divergedState` the `connected` getter is
false, yet `sendMessage` returns true and emits `send_message`, because the
guard in the source checks `this.socket?.connected`, not the getter. -/
theorem guarded_op_connected_getter_cex :
    connectedGetter divergedState = false ∧
    runGuarded divergedState (.sendMessage "r" "hi" "TEXT") =
      (some true, [("send_message", .sendMessage "r" "hi" "TEXT")]) :=
  ⟨rfl, rfl⟩

/-- Claim C2, amended: for every guarded operation and every state in which
the socket handle is absent or reports not connected (the guard condition
`this.socket?.connected`), the operation returns false or returns no value
(never true), performs no outbound socket emission, and — being a total
function — throws nothing. -/
theorem guarded_ops_fail_when_socket_not_connected (s : WSState)
    (op : GuardedOp) (h : socketConn s = false) :
    (runGuarded s op).1 ≠ some true ∧ (runGuarded s op).2 = [] := by
  cases op <;>
    simp [runGuarded, joinRoom, leaveRoom, sendMessage, markMessageAsRead,
      sendTypingStatus, getActiveUsers, sendChatInvitation,
      acceptChatInvitation, rejectChatInvitation, h]

/-- Witness for the amended C2: `sendMessage` on the fresh service. -/
theorem guarded_ops_fail_when_socket_not_connected_wit :
    (runGuarded (initState 1000) (.sendMessage "r" "hi" "TEXT")).1 ≠ some true ∧
    (runGuarded (initState 1000) (.sendMessage "r" "hi" "TEXT")).2 = [] :=
  guarded_ops_fail_when_socket_not_connected (initState 1000)
    (.sendMessage "r" "hi" "TEXT") rfl

/-- Claim C6: one delivery of `room_joined` (and likewise `room_left`) on the
connected socket is re-emitted TWICE through the registry — the duplicated
registrations in `setupEventListeners` — contradicting exactly-once, while
each of the other six inbound events is re-emitted exactly once with the
payload passed verbatim. -/
theorem room_events_reemitted_twice :
    deliverInbound "room_joined" (42 : Nat) = [("room_joined", 42), ("room_joined", 42)] ∧
    deliverInbound "room_left" (42 : Nat) = [("room_left", 42), ("room_left", 42)] ∧
    deliverInbound "new_message" (42 : Nat) = [("new_message", 42)] ∧
    deliverInbound "message_read" (42 : Nat) = [("message_read", 42)] ∧
    deliverInbound "user_typing" (42 : Nat) = [("user_typing", 42)] ∧
    deliverInbound "user_online" (42 : Nat) = [("user_online", 42)] ∧
    deliverInbound "user_offline" (42 : Nat) = [("user_offline", 42)] ∧
    deliverInbound "user_joined_room" (42 : Nat) = [("user_joined_room", 42)] := by
  refine ⟨rfl, rfl, rfl, rfl, rfl, rfl, rfl, rfl⟩

/-- A state with no socket but a cached user id: the catch path of connect
(after `this.currentUserId = userId` but with `io` having thrown) leaves the
service exactly here. -/
def orphanUserState : WSState := ⟨none, false, 0, some "u1", [], 1000⟩

/-- Claim C7, counterexample: with no socket present but a cached user id,
disconnect() is a complete no-op and leaves the cached user id non-null,
contradicting the claim that the cached user id is null after every
disconnect. -/
theorem disconnect_keeps_userId_cex :
    (disconnect orphanUserState).currentUserId = some "u1" := rfl

/-- Claim C7, amended: disconnect leaves the socket handle null and is
idempotent (a second call leaves the state exactly as after a single call,
and is safe — the model is a total function, matching the guarded body);
it clears the cached user id exactly when a socket was present, and is a
complete no-op when none was. -/
theorem disconnect_socket_null_idempotent (s : WSState) :
    (disconnect s).socket = none ∧
    disconnect (disconnect s) = disconnect s ∧
    (s.socket ≠ none → (disconnect s).currentUserId = none) ∧
    (s.socket = none → disconnect s = s) := by
  cases h : s.socket with
  | none => simp [disconnect, h]
  | some sk => simp [disconnect, h]

/-- Witness for the amended C7 at a state that owns a connected socket. -/
theorem disconnect_socket_null_idempotent_wit :
    (disconnect ⟨some ⟨true⟩, true, 0, some "u9", [], 1000⟩).socket = none ∧
    (disconnect ⟨some ⟨true⟩, true, 0, some "u9", [], 1000⟩).currentUserId = none :=
  ⟨(disconnect_socket_null_idempotent ⟨some ⟨true⟩, true, 0, some "u9", [], 1000⟩).1,
   (disconnect_socket_null_idempotent ⟨some ⟨true⟩, true, 0, some "u9", [], 1000⟩).2.2.1
     (by decide)⟩

/-- A connected service that knows its user: the state before a reconnect. -/
def connectedU1State : WSState := ⟨some ⟨true⟩, true, 0, some "u1", [], 2000⟩

/-- Claim C1: reconnect() from a connected state whose known user id is
`u1` does disconnect, wait the configured delay (2000 ms here) and return
the success boolean of connect — but the socket it reopens is passed
`userId = none` in its auth payload, not the previously known `u1`:
`this.disconnect()` has already cleared `this.currentUserId` by the time
`this.connect(this.currentUserId || undefined)` reads it. -/
theorem reconnect_drops_previous_userId :
    connectedU1State.currentUserId = some "u1" ∧
    (reconnect connectedU1State (fun _ => Except.ok (some "tok")) true).sleeps = [2000] ∧
    (reconnect connectedU1State (fun _ => Except.ok (some "tok")) true).result = true ∧
    (reconnect connectedU1State (fun _ => Except.ok (some "tok")) true).auth =
      some ("tok", none) ∧
    (reconnect connectedU1State (fun _ => Except.ok (some "tok")) true).state.currentUserId = none :=
  ⟨rfl, rfl, rfl, rfl, rfl⟩

/-- A service that is already connected as user `old`. -/
def alreadyConnState : WSState := ⟨some ⟨true⟩, true, 0, some "old", [], 1000⟩

/-- Claim C8, counterexample: connect on an already-connected service
resolves true immediately, but the status snapshot still reports the
previously stored user id `old`, not the freshly passed `new`. -/
theorem connect_status_userId_cex :
    (connect alreadyConnState (some "new") (fun _ => Except.ok (some "tok")) true).result = true ∧
    (getConnectionStatus (connect alreadyConnState (some "new")
      (fun _ => Except.ok (some "tok")) true).state).userId = some "old" ∧
    (getConnectionStatus (connect alreadyConnState (some "new")
      (fun _ => Except.ok (some "tok")) true).state).userId ≠ some "new" :=
  ⟨rfl, rfl, by decide⟩

/-- Claim C8, amended: if connect(userId) with a nonempty userId resolves
true from a state whose socket is not already connected, then
getConnectionStatus() reports connected = true and userId equal to the
userId passed to connect.  (When the socket is already connected, connect
returns true without touching the stored user id; an empty-string userId
would be stored as null by the `userId || null` truthiness test.) -/
theorem connect_fresh_success_status (s : WSState) (u : String)
    (store : TokenStore) (outcome : Bool) (hs : socketConn s = false)
    (hu : u ≠ "")
    (hres : (connect s (some u) store outcome).result = true) :
    (getConnectionStatus (connect s (some u) store outcome).state).connected = true ∧
    (getConnectionStatus (connect s (some u) store outcome).state).userId = some u := by
  unfold connect at hres ⊢
  rw [hs] at hres ⊢
  rcases htok : getAuthTokenWithRetry store 3 1000 with ⟨t, a, sl⟩
  rw [htok] at hres
  cases t with
  | none => simp at hres
  | some tok =>
    cases outcome with
    | false => simp at hres
    | true =>
      simp [getConnectionStatus, connectedGetter, socketConn, truthy, hu]

/-- Witness for the amended C8: a fresh connect as `u1` with a good token. -/
theorem connect_fresh_success_status_wit :
    (getConnectionStatus (connect (initState 1000) (some "u1")
      (fun _ => Except.ok (some "tok")) true).state).connected = true ∧
    (getConnectionStatus (connect (initState 1000) (some "u1")
      (fun _ => Except.ok (some "tok")) true).state).userId = some "u1" :=
  connect_fresh_success_status (initState 1000) "u1"
    (fun _ => Except.ok (some "tok")) true rfl (by decide) rfl

theorem connect_state_reconnectAttempts (s : WSState) (uid : Option String)
    (store : TokenStore) (outcome : Bool) :
    (connect s uid store outcome).state.reconnectAttempts = s.reconnectAttempts ∨
    (connect s uid store outcome).state.reconnectAttempts = 0 := by
  unfold connect
  split
  · exact Or.inl rfl
  · split
    · exact Or.inl rfl
    · split
      · exact Or.inr rfl
      · exact Or.inl rfl

theorem disconnect_reconnectAttempts (s : WSState) :
    (disconnect s).reconnectAttempts = s.reconnectAttempts := by
  unfold disconnect
  split <;> rfl

theorem reconnect_state_eq (s : WSState) (store : TokenStore) (outcome : Bool) :
    (reconnect s store outcome).state =
    (connect (disconnect s) (disconnect s).currentUserId store outcome).state := rfl

theorem step_preserves_zero_attempts {s s' : WSState} (h : Step s s')
    (hz : s.reconnectAttempts = 0) : s'.reconnectAttempts = 0 := by
  cases h with
  | connectStep uid store outcome =>
    rcases connect_state_reconnectAttempts s uid store outcome with h1 | h1
    · rw [h1, hz]
    · exact h1
  | disconnectStep => rw [disconnect_reconnectAttempts, hz]
  | reconnectStep store outcome =>
    rw [reconnect_state_eq]
    rcases connect_state_reconnectAttempts (disconnect s)
        (disconnect s).currentUserId store outcome with h1 | h1
    · rw [h1, disconnect_reconnectAttempts, hz]
    · exact h1
  | onStep e l => exact hz
  | offStep e l => exact hz
  | socketConnectStep => rfl
  | socketDisconnectStep => exact hz
  | socketConnectErrorStep => exact hz

/-- Claim C9: in every reachable state of the service the reconnect-attempt
counter is 0 — it starts at 0 and the only assignment to it (in the socket
connect handler) writes 0 — so getConnectionStatus() reports
reconnectAttempts = 0 after every sequence of operations. -/
theorem reconnectAttempts_always_zero (delay : Nat) (s : WSState)
    (h : Reachable delay s) :
    s.reconnectAttempts = 0 ∧ (getConnectionStatus s).reconnectAttempts = 0 := by
  have hz : s.reconnectAttempts = 0 := by
    induction h with
    | refl => rfl
    | tail _ hstep ih => exact step_preserves_zero_attempts hstep ih
  exact ⟨hz, hz⟩

/-- Witness for C9 at the freshly constructed service. -/
theorem reconnectAttempts_always_zero_wit :
    (initState 3000).reconnectAttempts = 0 ∧
    (getConnectionStatus (initState 3000)).reconnectAttempts = 0 :=
  reconnectAttempts_always_zero 3000 (initState 3000) Relation.ReflTransGen.refl

/-- Well-formedness of the registry as produced by JS Map/Set semantics:
Map keys are unique and each listener Set is duplicate-free. -/
def RegWF (r : Registry) : Prop :=
  (r.map Prod.fst).Nodup ∧ ∀ p ∈ r, p.2.Nodup

theorem regWF_tail {p : String × List Nat} {rest : Registry}
    (h : RegWF (p :: rest)) : RegWF rest :=
  ⟨(List.nodup_cons.mp h.1).2, fun q hq => h.2 q (List.mem_cons_of_mem _ hq)⟩

theorem key_ne_of_nodup {k : String} {ls : List Nat} {rest : Registry}
    (hwf : RegWF ((k, ls) :: rest)) : ∀ p ∈ rest, p.1 ≠ k := by
  intro p hp heq
  have hk := (List.nodup_cons.mp hwf.1).1
  have hmem : p.1 ∈ rest.map Prod.fst := List.mem_map_of_mem Prod.fst hp
  rw [heq] at hmem
  exact hk hmem

theorem listenersFor_eq_nil (r : Registry) (e : String)
    (h : ∀ p ∈ r, p.1 ≠ e) : listenersFor r e = [] := by
  induction r with
  | nil => rfl
  | cons p rest ih =>
    obtain ⟨k, ls⟩ := p
    unfold listenersFor
    rw [if_neg (h (k, ls) (List.mem_cons_self _ _))]
    exact ih (fun q hq => h q (List.mem_cons_of_mem _ hq))

theorem not_mem_listenersFor_regOff (r : Registry) (e : String) (l : Nat)
    (hwf : RegWF r) : l ∉ listenersFor (regOff r e l) e := by
  induction r with
  | nil => simp [regOff, listenersFor]
  | cons p rest ih =>
    obtain ⟨k, ls⟩ := p
    unfold regOff
    by_cases hk : k = e
    · subst hk
      rw [if_pos rfl]
      by_cases hnil : ls.erase l = []
      · rw [if_pos hnil, listenersFor_eq_nil rest k (key_ne_of_nodup hwf)]
        exact List.not_mem_nil l
      · rw [if_neg hnil]
        unfold listenersFor
        rw [if_pos rfl]
        exact (hwf.2 (k, ls) (List.mem_cons_self _ _)).not_mem_erase
    · rw [if_neg hk]
      unfold listenersFor
      rw [if_neg hk]
      exact ih (regWF_tail hwf)

theorem mem_listenersFor_regOff_iff (r : Registry) (e : String) (l l' : Nat)
    (hwf : RegWF r) (hne : l' ≠ l) :
    l' ∈ listenersFor (regOff r e l) e ↔ l' ∈ listenersFor r e := by
  induction r with
  | nil => simp [regOff]
  | cons p rest ih =>
    obtain ⟨k, ls⟩ := p
    unfold regOff
    by_cases hk : k = e
    · subst hk
      rw [if_pos rfl]
      by_cases hnil : ls.erase l = []
      · rw [if_pos hnil, listenersFor_eq_nil rest k (key_ne_of_nodup hwf)]
        unfold listenersFor
        rw [if_pos rfl]
        constructor
        · intro h
          exact absurd h (List.not_mem_nil _)
        · intro h
          have hmem := (List.mem_erase_of_ne hne).mpr h
          rw [hnil] at hmem
          exact absurd hmem (List.not_mem_nil _)
      · rw [if_neg hnil]
        unfold listenersFor
        rw [if_pos rfl, if_pos rfl]
        exact List.mem_erase_of_ne hne
    · rw [if_neg hk]
      unfold listenersFor
      rw [if_neg hk, if_neg hk]
      exact ih (regWF_tail hwf)

theorem mem_emitRun {α : Type} (beh : Nat → α → Option String) (ls : List Nat)
    (d : α) (x : Nat) (o : Option String) :
    (x, o) ∈ emitRun beh ls d ↔ x ∈ ls ∧ o = beh x d := by
  induction ls with
  | nil => simp [emitRun]
  | cons a rest ih =>
    unfold emitRun
    simp only [List.mem_cons, ih, Prod.mk.injEq]
    constructor
    · rintro (⟨hx, ho⟩ | ⟨hx, ho⟩)
      · subst hx
        exact ⟨Or.inl rfl, ho⟩
      · exact ⟨Or.inr hx, ho⟩
    · rintro ⟨hx | hx, ho⟩
      · subst hx
        exact Or.inl ⟨rfl, ho⟩
      · exact Or.inr ⟨hx, ho⟩

/-- Claim C4: on a well-formed registry, after off(e, l) an emit on e never
invokes l (with any outcome), while every other listener still registered
for e is still invoked with the emitted data. -/
theorem off_listener_never_invoked {α : Type} (beh : Nat → α → Option String)
    (r : Registry) (e : String) (l : Nat) (d : α) (hwf : RegWF r) :
    (∀ o, (l, o) ∉ emit beh (regOff r e l) e d) ∧
    (∀ l', l' ≠ l → l' ∈ listenersFor r e →
      (l', beh l' d) ∈ emit beh (regOff r e l) e d) := by
  constructor
  · intro o hmem
    exact not_mem_listenersFor_regOff r e l hwf
      ((mem_emitRun beh _ d l o).mp hmem).1
  · intro l' hne hl'
    exact (mem_emitRun beh _ d l' (beh l' d)).mpr
      ⟨(mem_listenersFor_regOff_iff r e l l' hwf hne).mpr hl', rfl⟩

/-- Witness for C4: listeners 1 and 2 on new_message; after off of 1, an
emit invokes 2 but not 1. -/
theorem off_listener_never_invoked_wit :
    ((1 : Nat), (none : Option String)) ∉
      emit (fun _ _ => none) (regOff [("new_message", [1, 2])] "new_message" 1)
        "new_message" (0 : Nat) ∧
    ((2 : Nat), (none : Option String)) ∈
      emit (fun _ _ => none) (regOff [("new_message", [1, 2])] "new_message" 1)
        "new_message" (0 : Nat) :=
  ⟨(off_listener_never_invoked (fun _ _ => none) [("new_message", [1, 2])]
      "new_message" 1 0 ⟨by decide, by decide⟩).1 none,
   (off_listener_never_invoked (fun _ _ => none) [("new_message", [1, 2])]
      "new_message" 1 0 ⟨by decide, by decide⟩).2 2 (by decide) (by decide)⟩

/-- Claim C5: when a registered listener throws during emit, the exception
is caught — the invocation log records it and emit, a total function,
returns normally — and every listener registered for the event is still
invoked with the emitted data. -/
theorem emit_catches_listener_errors {α : Type} (beh : Nat → α → Option String)
    (r : Registry) (e : String) (d : α) (l : Nat) (err : String)
    (hl : l ∈ listenersFor r e) (hthrow : beh l d = some err) :
    (l, some err) ∈ emit beh r e d ∧
    ∀ l', l' ∈ listenersFor r e → (l', beh l' d) ∈ emit beh r e d := by
  constructor
  · exact (mem_emitRun beh _ d l (some err)).mpr ⟨hl, hthrow.symm⟩
  · intro l' hl'
    exact (mem_emitRun beh _ d l' (beh l' d)).mpr ⟨hl', rfl⟩

/-- Witness for C5: listeners 1 (throws) and 2 on new_message; both are
invoked, the error of 1 is caught and recorded. -/
theorem emit_catches_listener_errors_wit :
    ((1 : Nat), some "boom") ∈
      emit (fun l _ => if l = 1 then some "boom" else none)
        [("new_message", [1, 2])] "new_message" (0 : Nat) ∧
    ((2 : Nat), (none : Option String)) ∈
      emit (fun l _ => if l = 1 then some "boom" else none)
        [("new_message", [1, 2])] "new_message" (0 : Nat) :=
  ⟨(emit_catches_listener_errors (fun l _ => if l = 1 then some "boom" else none)
      [("new_message", [1, 2])] "new_message" 0 1 "boom" (by decide) rfl).1,
   (emit_catches_listener_errors (fun l _ => if l = 1 then some "boom" else none)
      [("new_message", [1, 2])] "new_message" 0 1 "boom" (by decide) rfl).2 2
      (by decide)⟩

end WS
